import Mathlib

set_option maxRecDepth 100000

/-!
Shallow embedding of the text-to-slide normalization pipeline of
`backend/app.py` (yoga presentation generator), together with proofs about it.

Python strings are modelled as Lean `String`s viewed through their character
lists (`String.data`); every Python primitive the pipeline uses
(`split('\n')`, `strip`, `startswith`, `in`, `upper`, `isupper`, slicing,
`'\n'.join`) is given an explicit executable model below.  The case-mapping
models are ASCII-faithful (`upper`/`isupper` treat only ASCII letters as
cased), which is the fragment the pipeline's marker rules depend on.
-/

/-- Length of a Python string in code points (`len(s)`). -/
def pyLen (s : String) : Nat := s.data.length

/-- Split a character list at every occurrence of the separator character;
models Python `s.split(sep)` for a one-character separator: the result is
never empty, and splitting the empty string yields `[[]]`. -/
def splitChar (sep : Char) : List Char → List (List Char)
  | [] => [[]]
  | c :: cs =>
    if c = sep then [] :: splitChar sep cs
    else
      match splitChar sep cs with
      | [] => [[c]]
      | l :: ls => (c :: l) :: ls

/-- Python `s.split('\n')`. -/
def pySplitNl (s : String) : List String := (splitChar '\n' s.data).map String.mk

/-- Join character lists with a newline between consecutive entries; models
Python `'\n'.join(lines)`. -/
def joinNlData : List (List Char) → List Char
  | [] => []
  | [l] => l
  | l :: l' :: ls => l ++ '\n' :: joinNlData (l' :: ls)

/-- Python `'\n'.join(ls)`. -/
def pyJoinNl (ls : List String) : String := String.mk (joinNlData (ls.map String.data))

/-- Characters stripped by Python `str.strip()` (ASCII whitespace). -/
def pyWs (c : Char) : Bool :=
  c = ' ' || c = '\t' || c = '\n' || c = '\r' || c = '\x0b' || c = '\x0c'

/-- Python `s.strip()`: drop whitespace from both ends. -/
def pyStrip (s : String) : String :=
  String.mk (((s.data.dropWhile pyWs).reverse.dropWhile pyWs).reverse)

/-- Python `s.startswith(p)`. -/
def pyStartsWith (s p : String) : Bool := p.data.isPrefixOf s.data

/-- Substring occurrence on character lists: `p` occurs contiguously in the
scanned list. -/
def subOccurs (p : List Char) : List Char → Bool
  | [] => p.isEmpty
  | c :: cs => p.isPrefixOf (c :: cs) || subOccurs p cs

/-- Python `p in s` (substring containment). -/
def pyContains (s p : String) : Bool := subOccurs p.data s.data

/-- Python `s.upper()` (ASCII model).  Real `str.upper()` uses the full
Unicode case mapping and can lengthen a string on non-ASCII input (one
character may upper-case to several), so this per-character model is
length-preserving where the real function need not be; no theorem below
depends on length preservation — length bounds involving the upper-cased
name are stated on `pyUpper name` itself. -/
def pyUpper (s : String) : String := String.mk (s.data.map Char.toUpper)

/-- Python `s.isupper()` (ASCII model): at least one cased character and no
lowercase character. -/
def pyIsUpper (s : String) : Bool :=
  s.data.any (fun c => c.isAlpha) && s.data.all (fun c => !c.isLower)

/-- Python slicing `s[:n]`. -/
def pyTake (s : String) (n : Nat) : String := String.mk (s.data.take n)

/-- Emoji markers recognized as subheading indicators (app.py:161 and the
identical list at app.py:421). -/
def emojiList : List String :=
  ["🎯", "📝", "🌬️", "💪", "🧠", "🌟", "🚀", "⚠️", "📅", "👨‍🏫", "📚", "💼", "🎉"]

/-- Subheading test of the scanner: the line contains `SUBHEADING:` or one of
the emoji markers (app.py:161). -/
def subheadMarker (l : String) : Bool :=
  pyContains l "SUBHEADING:" || emojiList.any (fun e => pyContains l e)

/-- Bullet test: the line starts with a bullet character or a hyphen
(app.py:165). -/
def bulletMarker (l : String) : Bool := pyStartsWith l "•" || pyStartsWith l "-"

/-- Title test: `line.startswith('SLIDE') or (line.isupper() and
len(line) > 10)` (app.py:155). -/
def titleTrigger (l : String) : Bool :=
  pyStartsWith l "SLIDE" || (pyIsUpper l && decide (10 < pyLen l))

/-- Filler bullet appended until a slide has at least five bullets
(app.py:188). -/
def fillerBullet : String := "• Additional detailed point for comprehensive coverage"

/-- The `while len(content_lines) < 5` padding loop of app.py:187-188,
written with an explicit iteration bound so it reduces structurally: each pass
grows the list by one, so five passes always reach the exit condition. -/
def padBulletsFuel : Nat → List String → List String
  | 0, ls => ls
  | n + 1, ls => if ls.length < 5 then padBulletsFuel n (ls ++ [fillerBullet]) else ls

/-- The bullet-padding loop of app.py:187-188. -/
def padBullets (ls : List String) : List String := padBulletsFuel 5 ls

/-- The line-accumulating loop of `truncate_structured_content`
(app.py:204-209): keep whole lines while the running total stays strictly
under the budget, stop at the first line that does not fit. -/
def truncLoop (max_chars : Nat) : List String → Nat → List String
  | [], _ => []
  | line :: rest, total =>
    if total + pyLen line < max_chars then
      line :: truncLoop max_chars rest (total + pyLen line + 1)
    else []

/-- `truncate_structured_content` (app.py:197-213): if the text exceeds the
budget, keep an initial run of whole lines; if that run is blank, fall back to
a character-level cut with an ellipsis. -/
def truncate_structured_content (content : String) (max_chars : Nat := 500) : String :=
  if max_chars < pyLen content then
    let truncated := truncLoop max_chars (pySplitNl content) 0
    let result := pyJoinNl truncated
    if pyStrip result ≠ "" then result
    else pyTake content (max_chars - 3) ++ "..."
  else content

/-- Accumulator for the slide currently being built (app.py:150). -/
structure SlideAcc where
  title : String
  subheading : String
  content : List String
deriving DecidableEq, Repr

/-- `format_slide_content` (app.py:180-195): pad the bullet list to at least
five entries, keep the first six, join title, subheading and bullets with
newlines, and apply the 500-character truncation.  The dictionary-lookup
defaults of the source are dead code: the scanner always supplies all three
keys. -/
def format_slide_content (s : SlideAcc) : String :=
  truncate_structured_content
    (s.title ++ "\n" ++ s.subheading ++ "\n" ++ pyJoinNl ((padBullets s.content).take 6))

/-- Classification of one raw input line by the scanner of
`parse_structured_content` (app.py:152-167); the tests are applied to the
stripped line in source order: title first, then subheading, then bullet. -/
inductive LineKind
  | title
  | subhead
  | bullet
  | skip
deriving DecidableEq, Repr

/-- The scanner's per-line classification (app.py:155, 161, 165). -/
def genClassify (line : String) : LineKind :=
  let l := pyStrip line
  if titleTrigger l then .title
  else if subheadMarker l then .subhead
  else if bulletMarker l then .bullet
  else .skip

/-- One step of the scanner (app.py:152-167).  The state is the list of
finalized accumulators so far plus the accumulator being built; a title line
finalizes the current accumulator when its title is nonempty (Python's
truthiness test) and starts a fresh one. -/
def scanStep (st : List SlideAcc × SlideAcc) (line : String) : List SlideAcc × SlideAcc :=
  let l := pyStrip line
  match genClassify line with
  | .title => if st.2.title ≠ "" then (st.1 ++ [st.2], ⟨l, "", []⟩) else (st.1, ⟨l, "", []⟩)
  | .subhead => (st.1, { st.2 with subheading := l })
  | .bullet => (st.1, { st.2 with content := st.2.content ++ [l] })
  | .skip => st

/-- The accumulators finalized by a full scan of the raw text, including the
trailing accumulator when its title is nonempty (app.py:147-171). -/
def scanAccs (content : String) : List SlideAcc :=
  let st := (pySplitNl content).foldl scanStep ([], ⟨"", "", []⟩)
  if st.2.title ≠ "" then st.1 ++ [st.2] else st.1

/-- The formatted slides produced by the scan.  In the source each slide is
formatted at the moment it is appended (app.py:158, 171); formatting the
accumulator list afterwards yields the same list. -/
def scanSlides (content : String) : List String :=
  (scanAccs content).map format_slide_content

/-- Constant part of the first fallback slide body, after the interpolated
title line (app.py:218). -/
def fallbackRest0 : String := "🎯 SUBHEADING: Transform Your Yoga Journey\n• Foundational pose suitable for beginners to advanced practitioners\n• Builds comprehensive strength, balance and body awareness\n• Perfect integration into daily morning or evening routines\n• Creates profound connection between physical and mental states\n• Significantly enhances overall posture and spinal health\n• Recommended by yoga therapists for holistic wellness approach"

/-- `get_enhanced_fallback_content` (app.py:215-243): thirteen fixed slide
bodies; the subject name is interpolated (upper-cased) into the first title.
The f-string of entry one is rendered as string concatenation. -/
def get_enhanced_fallback_content (asanas_name : String) : List String :=
  ["MASTERING " ++ pyUpper asanas_name ++ "\n" ++ fallbackRest0,
   "STEP-BY-STEP GUIDANCE\n📝 SUBHEADING: Perfect Your Alignment & Technique\n• Start with proper foot placement and weight distribution\n• Engage core muscles while maintaining relaxed breathing\n• Align spine vertically with natural curvature maintained\n• Position shoulders correctly away from ear position\n• Coordinate subtle movements with breath patterns\n• Maintain steady gaze and focused mental attention",
   "BREATHING TECHNIQUES\n🌬️ SUBHEADING: Master Conscious Breathing Patterns\n• Practice deep diaphragmatic breathing throughout entire pose\n• Coordinate inhalation with expansion and lifting movements\n• Synchronize exhalation with grounding and stabilizing actions\n• Maintain consistent, rhythmic breathing pattern always\n• Incorporate advanced pranayama techniques when ready\n• Use breath as anchor for mental focus and concentration",
   "PHYSICAL BENEFITS\n💪 SUBHEADING: Transform Your Body Completely\n• Dramatically improves flexibility and joint mobility\n• Significantly strengthens core and postural muscles\n• Enhances overall body alignment and spinal health\n• Increases blood circulation and oxygen flow\n• Improves balance and proprioception significantly\n• Reduces risk of injury and chronic pain",
   "MENTAL BENEFITS\n🧠 SUBHEADING: Achieve Mental Clarity & Peace\n• Effectively reduces stress and anxiety levels\n• Improves mental focus and concentration abilities\n• Enhances mind-body connection and self-awareness\n• Promotes emotional balance and stability\n• Increases mindfulness and present moment awareness\n• Supports overall mental health and wellbeing",
   "BEGINNER FRIENDLY\n🌟 SUBHEADING: Start Your Journey Confidently\n• Simple modifications available for all ability levels\n• Progressive learning path with clear milestones\n• Patient, supportive approach to skill development\n• Encouraging community and resources available\n• Safe practice guidelines for new practitioners\n• Celebrating small victories and progress",
   "ADVANCED VARIATIONS\n🚀 SUBHEADING: Challenge Your Practice Further\n• Extended duration holds for strength building\n• Complex variations for experienced practitioners\n• Integration into flowing vinyasa sequences\n• Advanced breathing and bandha applications\n• Partner and assisted variations available\n• Creative expressions and personal adaptations",
   "SAFETY PRECAUTIONS\n⚠️ SUBHEADING: Practice Smart & Stay Safe\n• Always listen to your body\x27s signals and limitations\n• Avoid pushing beyond comfortable range of motion\n• Proper warm-up and preparation are absolutely essential\n• Consult healthcare providers for existing conditions\n• Use props and modifications when necessary\n• Practice under qualified guidance when starting",
   "DAILY PRACTICE ROUTINE\n📅 SUBHEADING: Build Consistent Habits\n• Morning practice ideal for energy and focus\n• 15-20 minutes daily for optimal results\n• Gradual progression in difficulty and duration\n• Regular self-assessment and adjustment\n• Integration with other wellness practices\n• Tracking progress and celebrating improvements",
   "TEACHING METHODOLOGY\n👨‍🏫 SUBHEADING: Share Knowledge Effectively\n• Clear, concise verbal cues and instructions\n• Comprehensive visual demonstrations and examples\n• Individualized adjustments and modifications\n• Positive, encouraging feedback and reinforcement\n• Safe and supportive learning environment\n• Progressive skill building approach",
   "PHILOSOPHICAL FOUNDATIONS\n📚 SUBHEADING: Deepen Your Understanding\n• Ancient wisdom and modern science integration\n• Holistic approach to health and wellness\n• Connection to larger yoga philosophy system\n• Spiritual dimensions of physical practice\n• Ethical principles and lifestyle applications\n• Personal transformation through consistent practice",
   "MODERN APPLICATIONS\n💼 SUBHEADING: Integrate Into Daily Life\n• Office chair variations for workplace wellness\n• Quick 5-minute break routines for busy schedules\n• Effective stress management tool for modern life\n• Family and group practice opportunities\n• Community building through shared practice\n• Lifestyle integration for sustainable benefits",
   "CONCLUSION & NEXT STEPS\n🎉 SUBHEADING: Continue Your Growth Journey\n• Consistent daily practice is absolutely essential\n• Progressive learning path with clear milestones\n• Enjoy the process and celebrate each achievement\n• Share knowledge and experience with others\n• Explore related poses and deeper practices\n• Lifetime journey of learning and growth"]

/-- The `while len(slides) < 13` padding loop of app.py:175-176: append
fallback-bank entries, indexed by the current output length modulo the bank
size, until thirteen slides exist.  The bank always has thirteen entries, so
the index is in range; `getD` returns `""` only for an empty bank. -/
def padLoopFuel : Nat → List String → List String → List String
  | 0, slides, _ => slides
  | n + 1, slides, bank =>
    if slides.length < 13 then
      padLoopFuel n (slides ++ [bank.getD (slides.length % bank.length) ""]) bank
    else slides

/-- The slide-padding loop of app.py:175-176, with an explicit iteration bound
so it reduces structurally: each pass grows the list by one, so thirteen
passes always reach the exit condition. -/
def padLoop (slides bank : List String) : List String := padLoopFuel 13 slides bank

/-- `parse_structured_content` (app.py:145-178). -/
def parse_structured_content (content asanas_name : String) : List String :=
  (padLoop (scanSlides content) (get_enhanced_fallback_content asanas_name)).take 13

/-- One step of the export-time line classification (app.py:420-424): the
marker tests run on the raw (unstripped) line, guarded by a nonblank test. -/
def exportStep (st : String × List String) (line : String) : String × List String :=
  if pyStrip line ≠ "" ∧ subheadMarker line then (line, st.2)
  else if pyStrip line ≠ "" ∧ bulletMarker line then (st.1, st.2 ++ [line])
  else st

/-- The export path's re-parse of one slide's content string (app.py:414-424):
the first line is taken as the title unconditionally (the default is dead code
since a split is never empty), the remaining lines are scanned for subheading
and bullet markers.  Returns (title, subheading, bullets) as recovered before
the export-side bullet padding. -/
def exportParseSlide (i : Nat) (content : String) : String × String × List String :=
  let content_lines := pySplitNl content
  let title := content_lines.headD ("Slide " ++ toString (i + 1))
  let sb := content_lines.tail.foldl exportStep ("", [])
  (title, sb.1, sb.2)

/-- Number of bullet-marked lines in a rendered slide text. -/
def bulletLineCount (s : String) : Nat :=
  ((pySplitNl s).filter (fun l => bulletMarker l)).length

/-! ### Basic facts about the string primitives -/

theorem pyLen_append (s t : String) : pyLen (s ++ t) = pyLen s + pyLen t := by
  simp [pyLen, String.data_append]

theorem splitChar_ne_nil (sep : Char) : ∀ l : List Char, splitChar sep l ≠ []
  | [] => by simp [splitChar]
  | c :: cs => by
    simp only [splitChar]
    split
    · simp
    · split
      · simp
      · simp

theorem pySplitNl_ne_nil (s : String) : pySplitNl s ≠ [] := by
  simp [pySplitNl, splitChar_ne_nil]

theorem joinNlData_splitChar : ∀ l : List Char, joinNlData (splitChar '\n' l) = l := by
  intro l
  induction l with
  | nil => rfl
  | cons c cs ih =>
    by_cases hc : c = '\n'
    · subst hc
      simp only [splitChar, if_pos rfl]
      obtain ⟨r0, rs, hr⟩ := List.exists_cons_of_ne_nil (splitChar_ne_nil '\n' cs)
      rw [hr]
      rw [hr] at ih
      simpa [joinNlData] using ih
    · simp only [splitChar, if_neg hc]
      obtain ⟨r0, rs, hr⟩ := List.exists_cons_of_ne_nil (splitChar_ne_nil '\n' cs)
      rw [hr]
      rw [hr] at ih
      cases rs with
      | nil => simpa [joinNlData] using congrArg (c :: ·) ih
      | cons r1 rs' =>
        simp only [joinNlData] at ih ⊢
        rw [List.cons_append, ih]

theorem pyJoinNl_pySplitNl (s : String) : pyJoinNl (pySplitNl s) = s := by
  unfold pyJoinNl pySplitNl
  rw [List.map_map]
  have h1 : (String.data ∘ String.mk) = id := rfl
  rw [h1, List.map_id, joinNlData_splitChar]

theorem splitChar_append_cons (sep : Char) :
    ∀ a b : List Char, sep ∉ a → splitChar sep (a ++ sep :: b) = a :: splitChar sep b := by
  intro a
  induction a with
  | nil => intro b _; simp [splitChar]
  | cons c cs ih =>
    intro b h
    have hc : ¬ c = sep := fun he => h (by simp [he])
    simp only [List.cons_append, splitChar, if_neg hc, List.append_eq]
    rw [ih b (fun hm => h (List.mem_cons_of_mem _ hm))]

/-! ### The character-budget truncation -/

/-- Weight of a line list: total characters plus one separator per line. -/
def lineWeight (ls : List String) : Nat := (ls.map (fun l => pyLen l + 1)).sum

theorem pyLen_pyJoinNl : ∀ ls : List String, ls ≠ [] → pyLen (pyJoinNl ls) + 1 = lineWeight ls
  | [l], _ => by simp [pyJoinNl, joinNlData, lineWeight, pyLen]
  | l :: l' :: ls, _ => by
    have ih := pyLen_pyJoinNl (l' :: ls) (by simp)
    simp only [pyJoinNl, joinNlData, lineWeight, pyLen, List.map_cons, List.sum_cons,
      List.length_append, List.length_cons] at ih ⊢
    omega

theorem truncLoop_is_take (m : Nat) :
    ∀ (ls : List String) (t : Nat), ∃ k, truncLoop m ls t = ls.take k := by
  intro ls
  induction ls with
  | nil => intro t; exact ⟨0, rfl⟩
  | cons l ls ih =>
    intro t
    by_cases h : t + pyLen l < m
    · obtain ⟨k, hk⟩ := ih (t + pyLen l + 1)
      exact ⟨k + 1, by simp [truncLoop, if_pos h, hk]⟩
    · exact ⟨0, by simp [truncLoop, if_neg h]⟩

theorem truncLoop_weight (m : Nat) :
    ∀ (ls : List String) (t : Nat), t ≤ m → t + lineWeight (truncLoop m ls t) ≤ m := by
  intro ls
  induction ls with
  | nil => intro t ht; simpa [truncLoop, lineWeight]
  | cons l ls ih =>
    intro t ht
    by_cases h : t + pyLen l < m
    · have := ih (t + pyLen l + 1) (by omega)
      simp only [truncLoop, if_pos h, lineWeight, List.map_cons, List.sum_cons] at this ⊢
      omega
    · simpa [truncLoop, if_neg h, lineWeight]

theorem truncate_length_le (c : String) : pyLen (truncate_structured_content c) ≤ 500 := by
  simp only [truncate_structured_content]
  split
  · next h =>
    split
    · next hres =>
      rcases heq : truncLoop 500 (pySplitNl c) 0 with _ | ⟨l, ls⟩
      · simp [heq, pyJoinNl, joinNlData, pyLen]
      · have hw := truncLoop_weight 500 (pySplitNl c) 0 (by omega)
        rw [heq] at hw
        have hj := pyLen_pyJoinNl (l :: ls) (by simp)
        omega
    · have h3 : pyLen "..." = 3 := rfl
      have ht : pyLen (pyTake c (500 - 3)) ≤ 497 := by
        simp [pyTake, pyLen]
      rw [pyLen_append]
      omega
  · next h => omega

theorem truncate_eq_self_of_le (c : String) (h : pyLen c ≤ 500) :
    truncate_structured_content c = c := by
  simp only [truncate_structured_content]
  rw [if_neg (by omega)]

/-! ### The bullet-padding and slide-padding loops -/

theorem padBulletsFuel_eq :
    ∀ (n : Nat) (ls : List String), 5 - ls.length ≤ n →
      padBulletsFuel n ls = ls ++ List.replicate (5 - ls.length) fillerBullet := by
  intro n
  induction n with
  | zero =>
    intro ls h
    rw [padBulletsFuel, Nat.le_zero.1 h, List.replicate_zero, List.append_nil]
  | succ n ih =>
    intro ls h
    rw [padBulletsFuel]
    split
    · next hlt =>
      rw [ih (ls ++ [fillerBullet]) (by simp [List.length_append]; omega)]
      rw [List.append_assoc]
      congr 1
      rw [List.length_append, List.length_singleton]
      rw [show 5 - ls.length = (5 - (ls.length + 1)) + 1 from by omega, List.replicate_succ]
      rfl
    · next hge =>
      rw [Nat.sub_eq_zero_of_le (by omega), List.replicate_zero, List.append_nil]

theorem padBullets_eq (ls : List String) :
    padBullets ls = ls ++ List.replicate (5 - ls.length) fillerBullet :=
  padBulletsFuel_eq 5 ls (by omega)

theorem padLoopFuel_eq :
    ∀ (n : Nat) (s b : List String), 13 - s.length ≤ n →
      padLoopFuel n s b =
        s ++ (List.range (13 - s.length)).map
          (fun i => b.getD ((s.length + i) % b.length) "") := by
  intro n
  induction n with
  | zero =>
    intro s b h
    rw [padLoopFuel, Nat.le_zero.1 h, List.range_zero, List.map_nil, List.append_nil]
  | succ n ih =>
    intro s b h
    rw [padLoopFuel]
    split
    · next hlt =>
      rw [ih (s ++ [b.getD (s.length % b.length) ""]) b
            (by simp [List.length_append]; omega)]
      rw [List.append_assoc]
      congr 1
      rw [List.length_append, List.length_singleton]
      rw [show 13 - s.length = (13 - (s.length + 1)) + 1 from by omega,
        List.range_succ_eq_map]
      simp only [List.map_cons, List.map_map, List.singleton_append, Nat.add_zero]
      congr 1
      apply List.map_congr_left
      intro i _
      simp only [Function.comp_apply]
      congr 2
      omega
    · next hge =>
      rw [Nat.sub_eq_zero_of_le (by omega), List.range_zero, List.map_nil, List.append_nil]

theorem padLoop_eq (s b : List String) :
    padLoop s b =
      s ++ (List.range (13 - s.length)).map
        (fun i => b.getD ((s.length + i) % b.length) "") :=
  padLoopFuel_eq 13 s b (by omega)

theorem padLoop_length (s b : List String) : 13 ≤ (padLoop s b).length := by
  rw [padLoop_eq]
  simp only [List.length_append, List.length_map, List.length_range]
  omega

theorem mem_padLoop {x : String} {s b : List String} (h : x ∈ padLoop s b) :
    x ∈ s ∨ x ∈ b ∨ x = "" := by
  rw [padLoop_eq] at h
  rcases List.mem_append.1 h with h | h
  · exact Or.inl h
  · right
    obtain ⟨i, _, hx⟩ := List.mem_map.1 h
    by_cases hb : (s.length + i) % b.length < b.length
    · left
      rw [← hx, List.getD_eq_getElem _ _ hb]
      exact List.getElem_mem hb
    · right
      rw [← hx, List.getD_eq_default _ _ (by omega)]

theorem map_range_getD (b : List String) :
    (List.range b.length).map (fun i => b.getD i "") = b := by
  apply List.ext_getElem
  · simp
  · intro i h1 h2
    simp only [List.getElem_map, List.getElem_range]
    rw [List.getD_eq_getElem _ _ h2]

/-! ### Facts about the scanner -/

theorem genClassify_of_title {line : String} (h : titleTrigger (pyStrip line) = true) :
    genClassify line = .title := by
  simp [genClassify, h]

theorem scanStep_no_title {line : String} (h : titleTrigger (pyStrip line) = false)
    (accs : List SlideAcc) (cur : SlideAcc) :
    (scanStep (accs, cur) line).1 = accs ∧
    (scanStep (accs, cur) line).2.title = cur.title := by
  by_cases hs : subheadMarker (pyStrip line) = true
  · constructor <;> simp [scanStep, genClassify, h, hs]
  · by_cases hb : bulletMarker (pyStrip line) = true
    · constructor <;> simp [scanStep, genClassify, h, hs, hb]
    · constructor <;> simp [scanStep, genClassify, h, hs, hb]

theorem scan_no_title :
    ∀ (lines : List String) (accs : List SlideAcc) (cur : SlideAcc),
      (∀ l ∈ lines, titleTrigger (pyStrip l) = false) →
      (lines.foldl scanStep (accs, cur)).1 = accs ∧
      (lines.foldl scanStep (accs, cur)).2.title = cur.title := by
  intro lines
  induction lines with
  | nil => intro accs cur _; exact ⟨rfl, rfl⟩
  | cons l ls ih =>
    intro accs cur h
    have hl : titleTrigger (pyStrip l) = false := h l (by simp)
    have hrest : ∀ x ∈ ls, titleTrigger (pyStrip x) = false := fun x hx => h x (by simp [hx])
    simp only [List.foldl_cons]
    obtain ⟨h1, h2⟩ := scanStep_no_title hl accs cur
    rcases hst : scanStep (accs, cur) l with ⟨accs', cur'⟩
    rw [hst] at h1 h2
    simp only at h1 h2
    obtain ⟨h3, h4⟩ := ih accs' cur' hrest
    exact ⟨by rw [h3, h1], by rw [h4, h2]⟩

theorem subheadMarker_ne_empty {l : String} (h : subheadMarker l = true) : l ≠ "" := by
  intro he
  rw [he] at h
  exact absurd h (by decide)

theorem bulletMarker_ne_empty {l : String} (h : bulletMarker l = true) : l ≠ "" := by
  intro he
  rw [he] at h
  exact absurd h (by decide)

theorem titleTrigger_ne_empty {l : String} (h : titleTrigger l = true) : l ≠ "" := by
  intro he
  rw [he] at h
  exact absurd h (by decide)

/-- On pre-stripped lines that never trigger the title rule, the generation
scanner and the export re-parse walk in lockstep: the scanner's accumulator
collects exactly the subheading and bullet list of the export fold. -/
theorem fold_agree :
    ∀ (rest : List String) (accs : List SlideAcc) (cur : SlideAcc),
      (∀ l ∈ rest, pyStrip l = l) →
      (∀ l ∈ rest, titleTrigger l = false) →
      rest.foldl scanStep (accs, cur) =
        (accs, ⟨cur.title, (rest.foldl exportStep (cur.subheading, cur.content)).1,
                (rest.foldl exportStep (cur.subheading, cur.content)).2⟩) := by
  intro rest
  induction rest with
  | nil => intro accs cur _ _; rfl
  | cons l ls ih =>
    intro accs cur h1 h2
    have hsl : pyStrip l = l := h1 l (by simp)
    have htl : titleTrigger l = false := h2 l (by simp)
    have h1' : ∀ x ∈ ls, pyStrip x = x := fun x hx => h1 x (by simp [hx])
    have h2' : ∀ x ∈ ls, titleTrigger x = false := fun x hx => h2 x (by simp [hx])
    simp only [List.foldl_cons]
    by_cases hs : subheadMarker l = true
    · have hne : l ≠ "" := subheadMarker_ne_empty hs
      have hstep : scanStep (accs, cur) l = (accs, { cur with subheading := l }) := by
        simp [scanStep, genClassify, hsl, htl, hs]
      have hexp : exportStep (cur.subheading, cur.content) l = (l, cur.content) := by
        simp [exportStep, hsl, hne, hs]
      rw [hstep, hexp]
      exact ih accs { cur with subheading := l } h1' h2'
    · by_cases hb : bulletMarker l = true
      · have hne : l ≠ "" := bulletMarker_ne_empty hb
        have hstep : scanStep (accs, cur) l =
            (accs, { cur with content := cur.content ++ [l] }) := by
          simp [scanStep, genClassify, hsl, htl, hs, hb]
        have hexp : exportStep (cur.subheading, cur.content) l =
            (cur.subheading, cur.content ++ [l]) := by
          simp [exportStep, hsl, hne, hs, hb]
        rw [hstep, hexp]
        exact ih accs { cur with content := cur.content ++ [l] } h1' h2'
      · have hstep : scanStep (accs, cur) l = (accs, cur) := by
          simp [scanStep, genClassify, hsl, htl, hs, hb]
        have hexp : exportStep (cur.subheading, cur.content) l =
            (cur.subheading, cur.content) := by
          simp [exportStep, hsl, hs, hb]
        rw [hstep, hexp]
        exact ih accs cur h1' h2'

/-! ### Newline preservation of the upper-casing model -/

theorem char_toNat_ofNatAux (n : Nat) (h : n.isValidChar) : (Char.ofNatAux n h).toNat = n := by
  simp [Char.ofNatAux, Char.toNat, UInt32.toNat]

theorem toUpper_ne_newline {c : Char} (h : c ≠ '\n') : Char.toUpper c ≠ '\n' := by
  unfold Char.toUpper
  simp only
  split
  · next hn =>
    intro heq
    have hv : (c.toNat - 32).isValidChar := by
      left
      omega
    rw [Char.ofNat, dif_pos hv] at heq
    have h1 : (Char.ofNatAux (c.toNat - 32) hv).toNat = ('\n').toNat := by rw [heq]
    rw [char_toNat_ofNatAux] at h1
    have h2 : ('\n').toNat = 10 := by decide
    omega
  · exact h

theorem pyUpper_no_newline {s : String} (h : '\n' ∉ s.data) : '\n' ∉ (pyUpper s).data := by
  simp only [pyUpper]
  intro hm
  obtain ⟨c, hc, he⟩ := List.mem_map.1 hm
  exact toUpper_ne_newline (fun hc' => h (hc' ▸ hc)) he

/-! ### Claim C1 -/

/-- C1: for every raw input text (and subject name), the Normalizer
`parse_structured_content` returns exactly 13 slide records: shorter scans are
padded from the fallback bank and longer ones are cut to the first 13. -/
theorem normalizer_always_thirteen (content asanas_name : String) :
    (parse_structured_content content asanas_name).length = 13 := by
  unfold parse_structured_content
  rw [List.length_take]
  have := padLoop_length (scanSlides content) (get_enhanced_fallback_content asanas_name)
  omega

/-! ### Claim C10 -/

/-- C10: the character-budget truncation (default 500-character budget) is
idempotent: applying `truncate_structured_content` twice equals applying it
once. -/
theorem truncate_idempotent (s : String) :
    truncate_structured_content (truncate_structured_content s) =
      truncate_structured_content s :=
  truncate_eq_self_of_le _ (truncate_length_le s)

/-! ### Claim C4 -/

/-- Input on which the truncation is not a whole-line prefix: a single
600-character line. -/
def cexC4input : String := String.mk (List.replicate 600 'x')

/-- C4 counterexample: for the single 600-character line, the truncated output
is not the newline-join of any initial segment of the input's lines — the
blank-result fallback cuts mid-line and appends an ellipsis. -/
theorem truncation_line_prefix_counterexample :
    ¬ ∃ k, truncate_structured_content cexC4input =
        pyJoinNl ((pySplitNl cexC4input).take k) := by
  rintro ⟨k, hk⟩
  have hsplit : pySplitNl cexC4input = [cexC4input] := by decide
  rcases k with _ | k
  · rw [List.take_zero] at hk
    exact absurd hk (by decide)
  · rw [hsplit, List.take_succ_cons, List.take_nil] at hk
    exact absurd hk (by decide)

/-- C4 (amended): when a slide's joined text exceeds the 500-character budget,
whole lines are dropped from the end, so the output is a prefix of the input's
line sequence — except when every line that fits is blank, in which case the
output is the first 497 characters of the input followed by an ellipsis. -/
theorem truncation_line_prefix_or_ellipsis (s : String) :
    (∃ k, truncate_structured_content s = pyJoinNl ((pySplitNl s).take k)) ∨
    truncate_structured_content s = pyTake s 497 ++ "..." := by
  simp only [truncate_structured_content]
  split
  · next h =>
    split
    · next hres =>
      left
      obtain ⟨k, hk⟩ := truncLoop_is_take 500 (pySplitNl s) 0
      exact ⟨k, by rw [hk]⟩
    · next hres =>
      right
      norm_num
  · next h =>
    left
    exact ⟨(pySplitNl s).length, by rw [List.take_length, pyJoinNl_pySplitNl]⟩

/-! ### Claim C2 -/

/-- Input whose over-budget title forces the truncation to drop every bullet
line from the finalized slide. -/
def cexC2input : String := "SLIDE " ++ String.mk (List.replicate 490 'a')

/-- C2 counterexample: the first slide the Normalizer produces for
`cexC2input` has zero bullet lines in its rendered text — the 500-character
truncation dropped all of them — refuting the claim that every output slide
has between 5 and 6 bullet lines. -/
theorem bullet_bound_counterexample :
    bulletLineCount ((parse_structured_content cexC2input "Yoga").getD 0 "") = 0 := by
  decide

/-- C2 (amended): at finalization each slide's bullet list is padded with the
fixed filler to at least 5 entries and cut to its first 6 entries in order
(never reordered), and that 5-6 entry list is what `format_slide_content`
joins into the rendered text; the subsequent 500-character truncation can drop
bullet lines, so the bound need not hold on the final output. -/
theorem bullets_padded_to_five_capped_at_six (acc : SlideAcc) :
    5 ≤ ((padBullets acc.content).take 6).length ∧
    ((padBullets acc.content).take 6).length ≤ 6 ∧
    (padBullets acc.content).take 6 =
      (acc.content ++ List.replicate (5 - acc.content.length) fillerBullet).take 6 ∧
    format_slide_content acc =
      truncate_structured_content
        (acc.title ++ "\n" ++ acc.subheading ++ "\n" ++
          pyJoinNl ((padBullets acc.content).take 6)) := by
  refine ⟨?_, ?_, by rw [padBullets_eq], rfl⟩
  · rw [padBullets_eq, List.length_take, List.length_append, List.length_replicate]
    omega
  · rw [List.length_take]
    omega

/-! ### Claim C3 -/

theorem fallback_entry_length {name e : String} (hn : pyLen (pyUpper name) ≤ 70)
    (he : e ∈ get_enhanced_fallback_content name) : pyLen e ≤ 500 := by
  simp only [get_enhanced_fallback_content, List.mem_cons, List.not_mem_nil, or_false] at he
  rcases he with rfl | rfl | rfl | rfl | rfl | rfl | rfl | rfl | rfl | rfl | rfl | rfl | rfl
  · rw [pyLen_append, pyLen_append, pyLen_append]
    have h1 : pyLen "MASTERING " = 10 := rfl
    have h2 : pyLen "\n" = 1 := rfl
    have h3 : pyLen fallbackRest0 = 419 := by decide
    omega
  all_goals decide

/-- Subject name long enough to push an untruncated fallback-padded slide past
the 500-character budget. -/
def cexC3name : String := String.mk (List.replicate 500 'A')

/-- C3 counterexample: with a 500-character subject name, the first slide of
the Normalizer's output (a fallback-padded entry, which is never truncated)
has more than 500 characters, refuting the unconditional budget claim. -/
theorem slide_budget_counterexample :
    500 < pyLen ((parse_structured_content "" cexC3name).getD 0 "") := by
  decide

/-- C3 (amended): every slide produced by the Normalizer has at most 500
characters provided the upper-cased subject name has at most 70 characters —
that is the string interpolated into the first fallback title, whose fixed
part is 430 characters.  Slides derived from the input are truncated and
satisfy the bound for any subject; fallback-padded entries are appended
untruncated and need the bound on the interpolated name. -/
theorem slide_length_within_budget (content name : String)
    (h : pyLen (pyUpper name) ≤ 70) :
    ∀ s ∈ parse_structured_content content name, pyLen s ≤ 500 := by
  intro s hs
  unfold parse_structured_content at hs
  have hs' := List.take_subset 13 _ hs
  rcases mem_padLoop hs' with h1 | h2 | h3
  · simp only [scanSlides] at h1
    obtain ⟨acc, _, rfl⟩ := List.mem_map.1 h1
    exact truncate_length_le _
  · exact fallback_entry_length h h2
  · rw [h3]
    decide

/-- Witness for C3 (amended) at a concrete subject and input. -/
theorem slide_length_within_budget_witness :
    pyLen (pyUpper "Tadasana") ≤ 70 ∧
    ∀ s ∈ parse_structured_content "SLIDE 1: X" "Tadasana", pyLen s ≤ 500 :=
  ⟨by decide, slide_length_within_budget "SLIDE 1: X" "Tadasana" (by decide)⟩

/-! ### Claim C5 -/

/-- C5 counterexample: the line `slide 1: x` begins with the token `SLIDE` in
lower case, yet the scanner does not classify it as a title — `startswith` is
case-sensitive — and a text consisting of that line alone yields no scanned
slide at all. -/
theorem slide_case_sensitivity_counterexample :
    genClassify "slide 1: x" ≠ LineKind.title ∧ scanAccs "slide 1: x" = [] := by
  constructor <;> decide

/-- C5 (amended): title detection is case-sensitive on the literal token
`SLIDE`: every line whose stripped form begins with the exact uppercase token
`SLIDE` starts a new slide title in the scanner (lower-case variants only
start a title when the all-uppercase-and-long rule happens to apply). -/
theorem uppercase_slide_prefix_starts_title (st : List SlideAcc × SlideAcc)
    (line : String) (h : pyStartsWith (pyStrip line) "SLIDE" = true) :
    (scanStep st line).2.title = pyStrip line := by
  have ht : titleTrigger (pyStrip line) = true := by
    simp [titleTrigger, h]
  have hg : genClassify line = .title := genClassify_of_title ht
  simp only [scanStep, hg]
  split <;> rfl

/-- Witness for C5 (amended) at the spec's own example line. -/
theorem uppercase_slide_prefix_starts_title_witness :
    pyStartsWith (pyStrip "SLIDE 14: SOMETHING") "SLIDE" = true ∧
    (scanStep ([], ⟨"", "", []⟩) "SLIDE 14: SOMETHING").2.title =
      pyStrip "SLIDE 14: SOMETHING" :=
  ⟨by decide, uppercase_slide_prefix_starts_title ([], ⟨"", "", []⟩) _ (by decide)⟩

/-! ### Claim C6 -/

/-- C6: if no input line triggers title detection, the Normalizer's output is
exactly the fallback bank's 13 entries for the subject, in the bank's order. -/
theorem zero_titles_yields_fallback (content name : String)
    (h : ∀ l ∈ pySplitNl content, titleTrigger (pyStrip l) = false) :
    parse_structured_content content name = get_enhanced_fallback_content name := by
  obtain ⟨h1, h2⟩ := scan_no_title (pySplitNl content) [] ⟨"", "", []⟩ h
  have hacc : scanAccs content = [] := by
    unfold scanAccs
    rw [if_neg (by simp [h2])]
    exact h1
  have hsl : scanSlides content = [] := by
    unfold scanSlides
    rw [hacc]
    rfl
  unfold parse_structured_content
  rw [hsl, padLoop_eq]
  simp only [List.nil_append, List.length_nil, Nat.sub_zero, Nat.zero_add]
  have hlen : (get_enhanced_fallback_content name).length = 13 := rfl
  have hmap : (List.range 13).map
        (fun i => (get_enhanced_fallback_content name).getD
          (i % (get_enhanced_fallback_content name).length) "") =
      (List.range 13).map (fun i => (get_enhanced_fallback_content name).getD i "") := by
    apply List.map_congr_left
    intro i hi
    rw [hlen, Nat.mod_eq_of_lt (List.mem_range.1 hi)]
  rw [hmap, show (13:Nat) = (get_enhanced_fallback_content name).length from hlen.symm,
    map_range_getD, List.take_length]

/-- Witness for C6 at a concrete titleless input. -/
theorem zero_titles_yields_fallback_witness :
    (∀ l ∈ pySplitNl "hello\nworld", titleTrigger (pyStrip l) = false) ∧
    parse_structured_content "hello\nworld" "Tadasana" =
      get_enhanced_fallback_content "Tadasana" :=
  ⟨by decide, zero_titles_yields_fallback "hello\nworld" "Tadasana" (by decide)⟩

/-! ### Claim C7 -/

/-- C7: when the scan produces k < 13 slides, the output keeps those k entries
first and pads positions k.. with fallback-bank entries indexed cyclically by
the current output length modulo the bank size 13. -/
theorem padding_cycles_from_scan_length (content name : String)
    (h : (scanSlides content).length < 13) :
    parse_structured_content content name =
      scanSlides content ++
        (List.range (13 - (scanSlides content).length)).map
          (fun i => (get_enhanced_fallback_content name).getD
            (((scanSlides content).length + i) % 13) "") := by
  unfold parse_structured_content
  rw [padLoop_eq]
  have hb : (get_enhanced_fallback_content name).length = 13 := rfl
  simp only [hb]
  rw [List.take_of_length_le
    (by simp only [List.length_append, List.length_map, List.length_range]; omega)]

/-- Input with exactly five detected titles. -/
def w7input : String := "SLIDE 1: A\nSLIDE 2: B\nSLIDE 3: C\nSLIDE 4: D\nSLIDE 5: E"

/-- Witness for C7 at an input with five detected titles: the first five
output entries derive from the input and the rest are fallback entries at
indices 5 mod 13, 6 mod 13, and so on. -/
theorem padding_cycles_witness :
    (scanSlides w7input).length < 13 ∧
    parse_structured_content w7input "Yoga" =
      scanSlides w7input ++
        (List.range (13 - (scanSlides w7input).length)).map
          (fun i => (get_enhanced_fallback_content "Yoga").getD
            (((scanSlides w7input).length + i) % 13) "") :=
  ⟨by decide, padding_cycles_from_scan_length w7input "Yoga" (by decide)⟩

/-! ### Claim C8 -/

theorem entry0_lines (name : String) (h : '\n' ∉ (pyUpper name).data) :
    pySplitNl ("MASTERING " ++ pyUpper name ++ "\n" ++ fallbackRest0) =
      ("MASTERING " ++ pyUpper name) :: pySplitNl fallbackRest0 := by
  have hnl : ("\n" : String).data = ['\n'] := rfl
  have hnin : '\n' ∉ ("MASTERING " ++ pyUpper name).data := by
    rw [String.data_append]
    intro hm
    rcases List.mem_append.1 hm with h1 | h2
    · exact absurd h1 (by decide)
    · exact h h2
  have hdata : ("MASTERING " ++ pyUpper name ++ "\n" ++ fallbackRest0).data =
      ("MASTERING " ++ pyUpper name).data ++ '\n' :: fallbackRest0.data := by
    simp [String.data_append, hnl, List.append_assoc]
  unfold pySplitNl
  rw [hdata, splitChar_append_cons '\n' _ _ hnin, List.map_cons]

/-- Name used to refute the unconditional shape claim for the fallback bank. -/
def cexC8name : String := "A\nB"

/-- C8 counterexample: for a subject name containing a newline, the first
fallback entry does not consist of a title line, a marked subheading line and
six bullet lines on 8 lines — the interpolated name adds a ninth line. -/
theorem fallback_shape_counterexample :
    (pySplitNl ((get_enhanced_fallback_content cexC8name).getD 0 "")).length ≠ 8 := by
  decide

/-- C8 (amended): for every subject name without a newline character,
`get_enhanced_fallback_content` returns exactly 13 slide-body strings, each
consisting on separate lines of a nonempty title line, a subheading line
carrying a recognizable marker, and six bullet lines (8 lines in all); as a
pure function of the name it is trivially deterministic. -/
theorem fallback_bank_shape (name : String) (h : '\n' ∉ name.data) :
    (get_enhanced_fallback_content name).length = 13 ∧
    ∀ e ∈ get_enhanced_fallback_content name,
      (pySplitNl e).length = 8 ∧
      (pySplitNl e).headD "" ≠ "" ∧
      subheadMarker ((pySplitNl e).tail.headD "") = true ∧
      ∀ l ∈ (pySplitNl e).tail.tail, bulletMarker l = true := by
  refine ⟨rfl, ?_⟩
  intro e he
  simp only [get_enhanced_fallback_content, List.mem_cons, List.not_mem_nil, or_false] at he
  rcases he with rfl | rfl | rfl | rfl | rfl | rfl | rfl | rfl | rfl | rfl | rfl | rfl | rfl
  · rw [entry0_lines name (pyUpper_no_newline h)]
    refine ⟨?_, ?_, ?_, ?_⟩
    · have hrest : (pySplitNl fallbackRest0).length = 7 := by decide
      simp [hrest]
    · simp only [List.headD_cons]
      intro he
      have hd := congrArg String.data he
      rw [String.data_append] at hd
      have hlen := congrArg List.length hd
      rw [List.length_append] at hlen
      have h10 : ("MASTERING " : String).data.length = 10 := rfl
      have h0 : ("" : String).data.length = 0 := rfl
      omega
    · simp only [List.tail_cons]
      decide
    · simp only [List.tail_cons]
      decide
  all_goals exact ⟨by decide, by decide, by decide, by decide⟩

/-- Witness for C8 (amended) at a concrete newline-free subject name. -/
theorem fallback_bank_shape_witness :
    ('\n' ∉ ("Tadasana" : String).data) ∧
    ((get_enhanced_fallback_content "Tadasana").length = 13 ∧
      ∀ e ∈ get_enhanced_fallback_content "Tadasana",
        (pySplitNl e).length = 8 ∧
        (pySplitNl e).headD "" ≠ "" ∧
        subheadMarker ((pySplitNl e).tail.headD "") = true ∧
        ∀ l ∈ (pySplitNl e).tail.tail, bulletMarker l = true) :=
  ⟨by decide, fallback_bank_shape "Tadasana" (by decide)⟩

/-! ### Claim C9 -/

/-- Content on which export-time re-parsing diverges from the generation-time
rules: an indented bullet line. -/
def cexC9input : String := "UPPER TITLE LINE AAA\n  • indented point"

/-- C9 counterexample: on `cexC9input` the generation-time scanner strips the
indented line and records the bullet, while the export re-parse tests the raw
line and recovers no bullets — the recovered structures differ. -/
theorem export_reparse_counterexample :
    scanAccs cexC9input = [⟨"UPPER TITLE LINE AAA", "", ["• indented point"]⟩] ∧
    (exportParseSlide 0 cexC9input).2.2 = [] := by
  constructor <;> decide

/-- C9 (amended): on slide content whose lines carry no leading or trailing
whitespace, whose first line is a title trigger and whose remaining lines are
not, the export re-parse recovers exactly the title, subheading and bullet
list that the generation-time scanner assigns to the same lines. -/
theorem export_reparse_agrees_on_clean_input (content : String)
    (h1 : ∀ l ∈ pySplitNl content, pyStrip l = l)
    (h2 : titleTrigger ((pySplitNl content).headD "") = true)
    (h3 : ∀ l ∈ (pySplitNl content).tail, titleTrigger l = false) :
    scanAccs content =
      [⟨(exportParseSlide 0 content).1, (exportParseSlide 0 content).2.1,
        (exportParseSlide 0 content).2.2⟩] := by
  rcases hl : pySplitNl content with _ | ⟨t, rest⟩
  · exact absurd hl (pySplitNl_ne_nil content)
  · have hstT : pyStrip t = t := h1 t (by rw [hl]; simp)
    have htrT : titleTrigger t = true := by
      rw [hl] at h2
      simpa using h2
    have hrs : ∀ l ∈ rest, pyStrip l = l := fun l hm => h1 l (by rw [hl]; simp [hm])
    have hrt : ∀ l ∈ rest, titleTrigger l = false := fun l hm => h3 l (by rw [hl]; simp [hm])
    have hg : genClassify t = .title := by
      rw [← hstT] at htrT
      exact genClassify_of_title htrT
    have hstep1 : scanStep ([], ⟨"", "", []⟩) t = ([], ⟨t, "", []⟩) := by
      simp [scanStep, hg, hstT]
    have hfold := fold_agree rest [] ⟨t, "", []⟩ hrs hrt
    have htne : t ≠ "" := titleTrigger_ne_empty htrT
    simp only [scanAccs, exportParseSlide]
    rw [hl]
    simp only [List.foldl_cons, List.headD_cons, List.tail_cons]
    rw [hstep1, hfold]
    simp [htne]

/-- Clean slide content used to witness the amended C9. -/
def w9input : String := "SLIDE 1: INTRO\n🎯 SUBHEADING: Test\n• one"

/-- Witness for C9 (amended) at a concrete clean slide body. -/
theorem export_reparse_agrees_witness :
    (∀ l ∈ pySplitNl w9input, pyStrip l = l) ∧
    titleTrigger ((pySplitNl w9input).headD "") = true ∧
    (∀ l ∈ (pySplitNl w9input).tail, titleTrigger l = false) ∧
    scanAccs w9input =
      [⟨(exportParseSlide 0 w9input).1, (exportParseSlide 0 w9input).2.1,
        (exportParseSlide 0 w9input).2.2⟩] :=
  ⟨by decide, by decide, by decide,
    export_reparse_agrees_on_clean_input w9input (by decide) (by decide) (by decide)⟩
